import Mathlib

/-!
Verification of the exam-schedule dashboard (`calendar_heatmap_range.py`).

The development shallowly embeds the data pipeline of the script:
date normalization (`normalize_date_string`), the global aggregation of exam
periods (`exam_periods`, `all_exam_dates`, `unavailable_students_per_date`),
the User-dashboard filtering (duplicate removal, zero-student and summary-row
filtering), the daily availability series (`institute_availability`,
`student_availability`), the `calendar_data` table, and the range-overlap
query (`colleges_with_exams`).

Calendar days are represented by their ordinal number in the proleptic
Gregorian calendar (the representation underlying `pd.Timestamp`); a civil
date is a `Ymd` triple and `toOrdinal` is the usual day count.
-/

namespace Dashboard

/-- Civil date: year, month (1-12), day (1-31). -/
structure Ymd where
  y : Nat
  m : Nat
  d : Nat
deriving DecidableEq

/-- Gregorian leap-year test, as used by pandas timestamps. -/
def isLeap (y : Nat) : Bool :=
  y % 4 == 0 && (y % 100 != 0 || y % 400 == 0)

/-- Number of days in month `m` of year `y`. -/
def daysInMonth (y m : Nat) : Nat :=
  if m = 2 then (if isLeap y then 29 else 28)
  else if m = 4 ∨ m = 6 ∨ m = 9 ∨ m = 11 then 30
  else 31

/-- Days of year `y` that precede the first day of month `m`. -/
def daysBeforeMonth (y m : Nat) : Nat :=
  ((List.range (m - 1)).map fun k => daysInMonth y (k + 1)).sum

/-- Days that precede January 1 of year `y` (proleptic Gregorian). -/
def daysBeforeYear (y : Nat) : Nat :=
  365 * (y - 1) + (y - 1) / 4 - (y - 1) / 100 + (y - 1) / 400

/-- Ordinal day number of a civil date. -/
def toOrdinal (t : Ymd) : Nat :=
  daysBeforeYear t.y + daysBeforeMonth t.y t.m + t.d

/-! ### Character-level utilities (ASCII, as in the Python string methods) -/

/-- ASCII digit test. -/
def isDigitChar (c : Char) : Bool :=
  48 ≤ c.toNat && c.toNat ≤ 57

/-- Numeric value of an ASCII digit. -/
def digitVal (c : Char) : Nat := c.toNat - 48

/-- ASCII lower-casing of one character (`str.lower` on the data in use). -/
def asciiLower (c : Char) : Char :=
  if 65 ≤ c.toNat ∧ c.toNat ≤ 90 then Char.ofNat (c.toNat + 32) else c

/-- ASCII whitespace test (`str.strip` / `\s`). -/
def isSpaceChar (c : Char) : Bool :=
  c = ' ' || c = '\t' || c = '\n' || c = '\r'

/-- Does `needle` occur at the front of `hay`? -/
def listPre : List Char → List Char → Bool
  | [], _ => true
  | _ :: _, [] => false
  | a :: as, b :: bs => a == b && listPre as bs

/-- Does `needle` occur anywhere inside `hay`? (Python `in` on strings.) -/
def listSub (needle : List Char) : List Char → Bool
  | [] => needle.isEmpty
  | b :: bs => listPre needle (b :: bs) || listSub needle bs

/-- Python `str.strip` on the character list. -/
def stripChars (cs : List Char) : List Char :=
  ((cs.dropWhile isSpaceChar).reverse.dropWhile isSpaceChar).reverse

/-- Python `str.strip`. -/
def pyStrip (s : String) : String := ⟨stripChars s.data⟩

/-- Python `str.lower` (ASCII fragment). -/
def pyLower (s : String) : String := ⟨s.data.map asciiLower⟩

/-! ### A model of `strptime`-format parsing

`normalize_date_string` tries a fixed list of `strftime` patterns through
`pd.to_datetime(..., format=fmt)`.  The directives below model the Python
`_strptime` field regexes (`%d` : `3[01]|[12]\d|0[1-9]|[1-9]`, `%m` :
`1[0-2]|0[1-9]|[1-9]`, `%Y` : four digits, `%y` : two digits with the POSIX
1969/2068 pivot, `%b`/`%B` : month names, whitespace matching one or more
blanks), with ordered-choice backtracking and a full-match requirement. -/

/-- One directive of a `strptime` format string. -/
inductive Dir where
  | dd
  | mm
  | y4
  | y2
  | bMon
  | bMonFull
  | lit (c : Char)
  | ws
deriving DecidableEq

/-- Abbreviated English month names (`%b`), lower-cased. -/
def monthAbbrevs : List (List Char × Nat) :=
  [("jan".data, 1), ("feb".data, 2), ("mar".data, 3), ("apr".data, 4),
   ("may".data, 5), ("jun".data, 6), ("jul".data, 7), ("aug".data, 8),
   ("sep".data, 9), ("oct".data, 10), ("nov".data, 11), ("dec".data, 12)]

/-- Full English month names (`%B`), lower-cased. -/
def monthFulls : List (List Char × Nat) :=
  [("january".data, 1), ("february".data, 2), ("march".data, 3),
   ("april".data, 4), ("may".data, 5), ("june".data, 6), ("july".data, 7),
   ("august".data, 8), ("september".data, 9), ("october".data, 10),
   ("november".data, 11), ("december".data, 12)]

/-- Match one month name from the table, case-insensitively. -/
def matchMonthName (tbl : List (List Char × Nat)) (cs : List Char) :
    Option (Nat × List Char) :=
  tbl.findSome? fun nv =>
    if listPre nv.1 (cs.map asciiLower) then some (nv.2, cs.drop nv.1.length)
    else none

/-- Partial parse state: the fields recovered so far (Python defaults). -/
structure PAcc where
  d : Nat := 1
  m : Nat := 1
  y : Nat := 1900
deriving DecidableEq

/-- Run a format over the input, returning parsed fields and leftover input.
Two-digit numeric field alternatives are preferred over one-digit ones,
mirroring the ordered alternation of the `_strptime` regexes. -/
def runFmt : List Dir → List Char → PAcc → Option (PAcc × List Char)
  | [], cs, a => some (a, cs)
  | Dir.dd :: rest, cs, a =>
    (match cs with
     | c1 :: c2 :: cs2 =>
       if isDigitChar c1 && isDigitChar c2
           && 1 ≤ 10 * digitVal c1 + digitVal c2
           && 10 * digitVal c1 + digitVal c2 ≤ 31 then
         runFmt rest cs2 { a with d := 10 * digitVal c1 + digitVal c2 }
       else none
     | _ => none)
    <|>
    (match cs with
     | c1 :: cs2 =>
       if isDigitChar c1 && 1 ≤ digitVal c1 then
         runFmt rest cs2 { a with d := digitVal c1 }
       else none
     | _ => none)
  | Dir.mm :: rest, cs, a =>
    (match cs with
     | c1 :: c2 :: cs2 =>
       if isDigitChar c1 && isDigitChar c2
           && 1 ≤ 10 * digitVal c1 + digitVal c2
           && 10 * digitVal c1 + digitVal c2 ≤ 12 then
         runFmt rest cs2 { a with m := 10 * digitVal c1 + digitVal c2 }
       else none
     | _ => none)
    <|>
    (match cs with
     | c1 :: cs2 =>
       if isDigitChar c1 && 1 ≤ digitVal c1 then
         runFmt rest cs2 { a with m := digitVal c1 }
       else none
     | _ => none)
  | Dir.y4 :: rest, cs, a =>
    (match cs with
     | c1 :: c2 :: c3 :: c4 :: cs2 =>
       if isDigitChar c1 && isDigitChar c2 && isDigitChar c3 && isDigitChar c4 then
         runFmt rest cs2
           { a with y := 1000 * digitVal c1 + 100 * digitVal c2
                         + 10 * digitVal c3 + digitVal c4 }
       else none
     | _ => none)
  | Dir.y2 :: rest, cs, a =>
    (match cs with
     | c1 :: c2 :: cs2 =>
       if isDigitChar c1 && isDigitChar c2 then
         let v := 10 * digitVal c1 + digitVal c2
         runFmt rest cs2 { a with y := if v ≤ 68 then 2000 + v else 1900 + v }
       else none
     | _ => none)
  | Dir.bMon :: rest, cs, a =>
    (match matchMonthName monthAbbrevs cs with
     | some (v, cs2) => runFmt rest cs2 { a with m := v }
     | none => none)
  | Dir.bMonFull :: rest, cs, a =>
    (match matchMonthName monthFulls cs with
     | some (v, cs2) => runFmt rest cs2 { a with m := v }
     | none => none)
  | Dir.lit c :: rest, cs, a =>
    (match cs with
     | c1 :: cs2 => if c1 = c then runFmt rest cs2 a else none
     | _ => none)
  | Dir.ws :: rest, cs, a =>
    (match cs with
     | c1 :: cs2 =>
       if isSpaceChar c1 then runFmt rest (cs2.dropWhile isSpaceChar) a
       else none
     | _ => none)

/-- `datetime.strptime`: run the format, require the whole input consumed,
and validate the resulting civil date. -/
def strptimeYmd (dirs : List Dir) (s : String) : Option Ymd :=
  match runFmt dirs s.data {} with
  | some (a, []) =>
    if 1 ≤ a.y ∧ 1 ≤ a.m ∧ a.m ≤ 12 ∧ 1 ≤ a.d ∧ a.d ≤ daysInMonth a.y a.m then
      some ⟨a.y, a.m, a.d⟩
    else none
  | _ => none

/-- `pd.Timestamp` representable range at midnight resolution
(1677-09-22 .. 2262-04-11); dates outside raise `OutOfBoundsDatetime`. -/
def tsBoundsOk (t : Ymd) : Bool :=
  toOrdinal ⟨1677, 9, 22⟩ ≤ toOrdinal t && toOrdinal t ≤ toOrdinal ⟨2262, 4, 11⟩

/-- `pd.to_datetime(s, format=dirs, errors="raise")` as a partial function:
`none` stands for the raised / coerced-to-`NaT` outcome. -/
def toDatetimeFmt (dirs : List Dir) (s : String) : Option Ymd :=
  (strptimeYmd dirs s).bind fun t => if tsBoundsOk t then some t else none

/-! ### `normalize_date_string` -/

/-- Format `"%d-%m-%Y"`. -/
def fmtDmy4 : List Dir := [Dir.dd, Dir.lit '-', Dir.mm, Dir.lit '-', Dir.y4]

/-- Format `"%d/%m/%Y"`. -/
def fmtDmy4Slash : List Dir := [Dir.dd, Dir.lit '/', Dir.mm, Dir.lit '/', Dir.y4]

/-- Format `"%d-%m-%y"`. -/
def fmtDmy2 : List Dir := [Dir.dd, Dir.lit '-', Dir.mm, Dir.lit '-', Dir.y2]

/-- Format `"%m-%d-%Y"`. -/
def fmtMdy4 : List Dir := [Dir.mm, Dir.lit '-', Dir.dd, Dir.lit '-', Dir.y4]

/-- Format `"%m/%d/%Y"`. -/
def fmtMdy4Slash : List Dir := [Dir.mm, Dir.lit '/', Dir.dd, Dir.lit '/', Dir.y4]

/-- Format `"%Y-%m-%d"`. -/
def fmtYmdIso : List Dir := [Dir.y4, Dir.lit '-', Dir.mm, Dir.lit '-', Dir.dd]

/-- Format `"%d.%m.%Y"`. -/
def fmtDmy4Dot : List Dir := [Dir.dd, Dir.lit '.', Dir.mm, Dir.lit '.', Dir.y4]

/-- Format `"%d %b %Y"`. -/
def fmtDbY : List Dir := [Dir.dd, Dir.ws, Dir.bMon, Dir.ws, Dir.y4]

/-- Format `"%d %B %Y"`. -/
def fmtDBY : List Dir := [Dir.dd, Dir.ws, Dir.bMonFull, Dir.ws, Dir.y4]

/-- The ordered `formats_to_try` list of `normalize_date_string`. -/
def formatsToTry : List (List Dir) :=
  [fmtDmy4, fmtDmy4Slash, fmtDmy2, fmtMdy4, fmtMdy4Slash, fmtYmdIso,
   fmtDmy4Dot, fmtDbY, fmtDBY]

/-- The two-digit-year fix-up of lines 158-159 (`dt.year < 100` implies
`dt.replace(year=dt.year + 2000)`). -/
def yearFix (dt : Ymd) : Ymd :=
  if dt.y < 100 then { dt with y := dt.y + 2000 } else dt

/-- The `for fmt in formats_to_try` loop: on a parse success the two-digit
year fix-up and the `[2000, 2099]` range test run; a failed range test
`continue`s with the remaining formats. -/
def tryFormats : List (List Dir) → String → Option Ymd
  | [], _ => none
  | f :: rest, s =>
    match toDatetimeFmt f s with
    | some dt =>
      if 2000 ≤ (yearFix dt).y ∧ (yearFix dt).y ≤ 2099 then some (yearFix dt)
      else tryFormats rest s
    | none => tryFormats rest s

/-- Modelled from the spec: the final permissive fallback
`pd.to_datetime(date_str, dayfirst=True)` delegates to the external
`dateutil` parser, declared a black box by the spec (§4.2, out-of-scope
parsing library).  The model covers its behaviour on three
dash/slash/dot/blank-separated numeric fields read day-first with a
four-digit year, which is the shape every claim exercises. -/
def dateutilDayfirst (s : String) : Option Ymd :=
  let toks := (s.data.splitOnP fun c =>
    c = '-' || c = '/' || c = '.' || isSpaceChar c)
  match toks with
  | [a, b, c] =>
    if a.all isDigitChar && b.all isDigitChar && c.all isDigitChar
        && a.length ≠ 0 && b.length ≠ 0 && c.length = 4 then
      let d := a.foldl (fun n ch => 10 * n + digitVal ch) 0
      let m := b.foldl (fun n ch => 10 * n + digitVal ch) 0
      let y := c.foldl (fun n ch => 10 * n + digitVal ch) 0
      if 1 ≤ m ∧ m ≤ 12 ∧ 1 ≤ d ∧ d ≤ daysInMonth y m ∧ tsBoundsOk ⟨y, m, d⟩ then
        some ⟨y, m, d⟩
      else none
    else none
  | _ => none

/-- `normalize_date_string` up to the final `strftime`: the civil date the
function would render, `none` when it returns `None`. -/
def normalizeYmd (s : String) : Option Ymd :=
  if pyStrip s = "" then none
  else
    match tryFormats formatsToTry (pyStrip s) with
    | some dt => some dt
    | none =>
      (dateutilDayfirst (pyStrip s)).bind fun dt =>
        if 2000 ≤ dt.y ∧ dt.y ≤ 2099 then some dt else none

/-- Decimal digits of a natural number, most significant first. -/
def natDigits (n : Nat) : List Char :=
  (Nat.toDigits 10 n)

/-- Zero-pad a numeral on the left to width `w`. -/
def padNum (w n : Nat) : String :=
  ⟨List.replicate (w - (natDigits n).length) '0' ++ natDigits n⟩

/-- `dt.strftime("%d-%m-%Y")`. -/
def formatDmy (t : Ymd) : String :=
  padNum 2 t.d ++ "-" ++ padNum 2 t.m ++ "-" ++ padNum 4 t.y

/-- `normalize_date_string`: canonical `DD-MM-YYYY` string or `None`. -/
def normalize_date_string (s : String) : Option String :=
  (normalizeYmd s).map formatDmy

/-! ### Institute records and the global aggregation

One row of the cleaned dataframe (after the column normalization and the
`normalize_date_string` pass of lines 93-185): each exam date cell is either
`None` or some string, and `total_students` has been coerced to an integer. -/

/-- One institute row of the dataframe snapshot. -/
structure InstituteRecord where
  document_id : String := ""
  institute_name : String := ""
  institute_code : String := ""
  total_students : Int := 0
  exam_start : Option String := none
  exams_end : Option String := none
  exam_start_1 : Option String := none
  exam_end : Option String := none
  exam_start_2 : Option String := none
  exam_end_1 : Option String := none
  exam_start_3 : Option String := none
  exam_end_2 : Option String := none
deriving DecidableEq

/-- Python truthiness of a date cell (`if start_str and end_str`):
present and non-empty. -/
def truthy : Option String → Bool
  | none => false
  | some s => !(s == "")

/-- `exam_pairs_to_years`: the four (academic year, start cell, end cell)
column pairs of a row, in source order. -/
def exam_pairs_to_years (r : InstituteRecord) :
    List (String × Option String × Option String) :=
  [("I year", r.exam_start, r.exams_end),
   ("II year", r.exam_start_1, r.exam_end),
   ("III year", r.exam_start_2, r.exam_end_1),
   ("IV year", r.exam_start_3, r.exam_end_2)]

/-- Lines 197-200: both cells truthy, both parse under `"%d-%m-%Y"`, and
`start <= end`; the result is the ordinal interval of the period. -/
def valid_period (os oe : Option String) : Option (Nat × Nat) :=
  if truthy os && truthy oe then
    match toDatetimeFmt fmtDmy4 (os.getD ""), toDatetimeFmt fmtDmy4 (oe.getD "") with
    | some s, some e =>
      if toOrdinal s ≤ toOrdinal e then some (toOrdinal s, toOrdinal e) else none
    | _, _ => none
  else none

/-- One entry of the global `exam_periods` list (line 205). -/
structure PeriodEntry where
  institute_name : String
  academic_year : String
  start_ord : Nat
  end_ord : Nat
  students : Int
deriving DecidableEq

/-- The `exam_periods` entries contributed by one record. -/
def record_entries (r : InstituteRecord) : List PeriodEntry :=
  (exam_pairs_to_years r).filterMap fun t =>
    (valid_period t.2.1 t.2.2).map fun se =>
      { institute_name := r.institute_name, academic_year := t.1,
        start_ord := se.1, end_ord := se.2, students := r.total_students }

/-- The global `exam_periods` list over the whole snapshot. -/
def exam_periods (df : List InstituteRecord) : List PeriodEntry :=
  df.flatMap record_entries

/-- `pd.date_range(start, end, freq="D")` on ordinals: every day of the
closed interval. -/
def date_range_ord (s e : Nat) : List Nat :=
  List.range' s (e + 1 - s)

/-- The global `all_exam_dates` list: every period extends it with each of
its days, one occurrence per covering period (lines 203-204). -/
def all_exam_dates (df : List InstituteRecord) : List Nat :=
  df.flatMap fun r => (record_entries r).flatMap fun p => date_range_ord p.start_ord p.end_ord

/-- `pd.Series(all_exam_dates).value_counts()` looked up at day `d`
(with the `reindex(..., fill_value=0)` default). -/
def exam_counts_at (df : List InstituteRecord) (d : Nat) : Nat :=
  (all_exam_dates df).count d

/-- The `unavailable_students_per_date` dict as a total function (absent key
= 0, which is how `student_availability` reads it): built by the same
day-by-day accumulation loop as lines 213-218. -/
def unavailable_students_map (df : List InstituteRecord) : Nat → Int :=
  df.foldl
    (fun acc r =>
      (record_entries r).foldl
        (fun acc2 p =>
          (date_range_ord p.start_ord p.end_ord).foldl
            (fun m dk => fun x => if x = dk then m x + p.students else m x) acc2)
        acc)
    (fun _ => 0)

/-! ### The User-dashboard filtering pipeline (lines 253-310) -/

/-- `df.drop_duplicates(subset=["institute_code"], keep="first")`. -/
def drop_dup_aux : List String → List InstituteRecord → List InstituteRecord
  | _, [] => []
  | seen, r :: rest =>
    if r.institute_code ∈ seen then drop_dup_aux seen rest
    else r :: drop_dup_aux (r.institute_code :: seen) rest

/-- Duplicate-code removal, keeping the first occurrence. -/
def drop_duplicates_first (df : List InstituteRecord) : List InstituteRecord :=
  drop_dup_aux [] df

/-- The string-valued cells of a row, in column order (`total_students` is
an `int` by line 185, so `isinstance(row[col], str)` skips it; a `None`
date cell is likewise skipped). -/
def str_cells (r : InstituteRecord) : List String :=
  [r.document_id, r.institute_name, r.institute_code] ++
    ([r.exam_start, r.exams_end, r.exam_start_1, r.exam_end,
      r.exam_start_2, r.exam_end_1, r.exam_start_3, r.exam_end_2].filterMap id)

/-- Python `"total" in row[col].lower()`. -/
def contains_total (s : String) : Bool :=
  listSub "total".data (pyLower s).data

/-- Summary-row detection (lines 275-279). -/
def is_summary_row (r : InstituteRecord) : Bool :=
  (str_cells r).any contains_total

/-- The `valid_rows` filter (line 283): positive student count and not a
summary row. -/
def valid_rows (df : List InstituteRecord) : List InstituteRecord :=
  df.filter fun r => decide (0 < r.total_students) && !is_summary_row r

/-- The dataframe the totals are computed over: duplicates dropped
(checkbox default), then the `valid_rows` filter. -/
def user_valid_df (df0 : List InstituteRecord) : List InstituteRecord :=
  valid_rows (drop_duplicates_first df0)

/-- `total_institutes = len(df)` over the filtered dataframe. -/
def total_institutes (df : List InstituteRecord) : Nat := df.length

/-- `total_students = df["total_students"].sum()` over the filtered
dataframe. -/
def total_students_sum (df : List InstituteRecord) : Int :=
  (df.map (fun r => r.total_students)).sum

/-! ### Daily availability and `calendar_data` (lines 347-381) -/

/-- Line 358: the filtered total minus the raw per-day occurrence count of
the full-snapshot aggregation. -/
def institute_availability (df0 : List InstituteRecord) (d : Nat) : Int :=
  (total_institutes (user_valid_df df0) : Int) - (exam_counts_at df0 d : Int)

/-- Lines 360-366: the filtered student total minus the dict value
(the dict was filled over the full snapshot; an absent day keeps the
total). -/
def student_availability (df0 : List InstituteRecord) (d : Nat) : Int :=
  total_students_sum (user_valid_df df0) - unavailable_students_map df0 d

/-- Ordinal of January 1 of the requested year. -/
def year_start_ord (y : Nat) : Nat := toOrdinal ⟨y, 1, 1⟩

/-- Ordinal of December 31 of the requested year. -/
def year_end_ord (y : Nat) : Nat := toOrdinal ⟨y, 12, 31⟩

/-- `full_range = pd.date_range(f"{year}-01-01", f"{year}-12-31")`. -/
def full_range (y : Nat) : List Nat :=
  List.range' (year_start_ord y) (year_end_ord y + 1 - year_start_ord y)

/-- One row of the `calendar_data` dataframe (the columns the claims are
about; percentages and intensity are real-valued, modelled in `ℚ`). -/
structure DayRow where
  date : Nat
  institutes_available : Int
  students_available : Int
  institute_percentage : Rat
  student_percentage : Rat
  intensity : Rat
deriving DecidableEq

/-- `calendar_data` (lines 369-381): one row per day of `full_range`, with
the guarded percentage and intensity derivations. -/
def calendar_data (df0 : List InstituteRecord) (y : Nat) : List DayRow :=
  let ti : Int := (total_institutes (user_valid_df df0) : Int)
  let ts : Int := total_students_sum (user_valid_df df0)
  (full_range y).map fun d =>
    { date := d,
      institutes_available := institute_availability df0 d,
      students_available := student_availability df0 d,
      institute_percentage :=
        if 0 < ti then ((institute_availability df0 d : Rat) / (ti : Rat)) * 100 else 0,
      student_percentage :=
        if 0 < ts then ((student_availability df0 d : Rat) / (ts : Rat)) * 100 else 0,
      intensity :=
        if 0 < ti then 1 - ((institute_availability df0 d : Rat) / (ti : Rat)) else 0 }

/-! ### The range-overlap query (lines 486-511) -/

/-- `colleges_with_exams`: for each row of the (filtered) dataframe and each
valid period, the `(institute_name, academic_year)` pair is appended exactly
when `start <= range_end and end >= range_start`. -/
def colleges_with_exams (df : List InstituteRecord)
    (range_start range_end : Nat) : List (String × String) :=
  df.flatMap fun r =>
    (exam_pairs_to_years r).filterMap fun t =>
      (valid_period t.2.1 t.2.2).bind fun se =>
        if se.1 ≤ range_end ∧ range_start ≤ se.2 then
          some (r.institute_name, t.1)
        else none

/-- Number of valid periods of one record covering day `d`. -/
def covering_count (r : InstituteRecord) (d : Nat) : Nat :=
  ((record_entries r).filter fun p =>
    decide (p.start_ord ≤ d ∧ d ≤ p.end_ord)).length

/-! ### Concrete snapshots used by counterexamples and witnesses -/

/-- A single valid institute with two exam periods that both cover
June 11, 2025 (I year June 10-12, II year June 11-15). -/
def recTwoPeriods : InstituteRecord :=
  { document_id := "doc1", institute_name := "alpha college",
    institute_code := "A1", total_students := 200,
    exam_start := some "10-06-2025", exams_end := some "12-06-2025",
    exam_start_1 := some "11-06-2025", exam_end := some "15-06-2025" }

/-- June 11, 2025 as an ordinal. -/
def dJun11 : Nat := toOrdinal ⟨2025, 6, 11⟩

/-- A valid institute kept by every filter, exam June 10-12, 2025. -/
def recKeep : InstituteRecord :=
  { document_id := "doc2", institute_name := "beta college",
    institute_code := "K1", total_students := 10,
    exam_start := some "10-06-2025", exams_end := some "12-06-2025" }

/-- A zero-student institute (filtered out) whose exam covers June 11. -/
def recZero : InstituteRecord :=
  { document_id := "doc3", institute_name := "gamma college",
    institute_code := "Z1", total_students := 0,
    exam_start := some "11-06-2025", exams_end := some "11-06-2025" }

/-- A summary row (name contains "total", filtered out) whose exam covers
June 11. -/
def recSummary : InstituteRecord :=
  { document_id := "doc4", institute_name := "grand total",
    institute_code := "S1", total_students := 5,
    exam_start := some "11-06-2025", exams_end := some "11-06-2025" }

/-- A duplicate of `recKeep`'s institute code (dropped to first-seen) whose
exam covers June 11. -/
def recDup : InstituteRecord :=
  { document_id := "doc5", institute_name := "delta college",
    institute_code := "K1", total_students := 7,
    exam_start := some "11-06-2025", exams_end := some "11-06-2025" }

/-- Snapshot mixing one kept record with three excluded ones. -/
def dfMixed : List InstituteRecord := [recKeep, recZero, recSummary, recDup]

/-- Institute whose exam May 30 - June 2, 2025 partially overlaps the
selected June range at its start. -/
def recPartial : InstituteRecord :=
  { document_id := "doc6", institute_name := "partial college",
    institute_code := "P1", total_students := 50,
    exam_start := some "30-05-2025", exams_end := some "02-06-2025" }

/-- Institute whose exam July 1-5, 2025 is disjoint from the selected June
range. -/
def recDisjoint : InstituteRecord :=
  { document_id := "doc7", institute_name := "disjoint college",
    institute_code := "D1", total_students := 60,
    exam_start := some "01-07-2025", exams_end := some "05-07-2025" }

/-- A record with a malformed I-year period (start present, end absent) and
a valid II-year period June 11-15, 2025. -/
def recMalformed : InstituteRecord :=
  { document_id := "doc8", institute_name := "epsilon college",
    institute_code := "E1", total_students := 40,
    exam_start := some "10-06-2025", exams_end := none,
    exam_start_1 := some "11-06-2025", exam_end := some "15-06-2025" }

/-- Blank one of the four period column pairs of a record. -/
def clear_pair (r : InstituteRecord) : Nat → InstituteRecord
  | 0 => { r with exam_start := none, exams_end := none }
  | 1 => { r with exam_start_1 := none, exam_end := none }
  | 2 => { r with exam_start_2 := none, exam_end_1 := none }
  | 3 => { r with exam_start_3 := none, exam_end_2 := none }
  | _ => r

/-- The start/end cells of the `i`-th period column pair. -/
def pair_at (r : InstituteRecord) : Nat → Option String × Option String
  | 0 => (r.exam_start, r.exams_end)
  | 1 => (r.exam_start_1, r.exam_end)
  | 2 => (r.exam_start_2, r.exam_end_1)
  | 3 => (r.exam_start_3, r.exam_end_2)
  | _ => (none, none)

/-- The January 1 row that `calendar_data` produces for the empty snapshot
in 2025. -/
def rowJan1Empty : DayRow :=
  { date := toOrdinal ⟨2025, 1, 1⟩, institutes_available := 0,
    students_available := 0, institute_percentage := 0,
    student_percentage := 0, intensity := 0 }

/-- A period column pair is malformed in the sense of the spec: exactly one
of the two dates present, or both present, parseable, and start after end. -/
def period_malformed (os oe : Option String) : Prop :=
  (truthy os = true ∧ truthy oe = false) ∨
  (truthy os = false ∧ truthy oe = true) ∨
  (truthy os = true ∧ truthy oe = true ∧
    ∃ ds de, toDatetimeFmt fmtDmy4 (os.getD "") = some ds ∧
      toDatetimeFmt fmtDmy4 (oe.getD "") = some de ∧
      toOrdinal de < toOrdinal ds)

/-! ## Supporting lemmas -/

theorem count_range'_eq (s n d : Nat) :
    (List.range' s n).count d = if s ≤ d ∧ d < s + n then 1 else 0 := by
  induction n generalizing s with
  | zero =>
    have h : ¬(s ≤ d ∧ d < s + 0) := by omega
    simp only [List.range', List.count_nil, if_neg h]
  | succ n ih =>
    rw [List.range'_succ, List.count_cons, ih (s + 1)]
    simp only [beq_iff_eq]
    split_ifs <;> omega

theorem count_date_range (s e d : Nat) (h : s ≤ e) :
    (date_range_ord s e).count d = if s ≤ d ∧ d ≤ e then 1 else 0 := by
  rw [date_range_ord, count_range'_eq]
  have h2 : s + (e + 1 - s) = e + 1 := by omega
  rw [h2]
  split_ifs <;> omega

theorem valid_period_some {os oe : Option String} {s e : Nat}
    (h : valid_period os oe = some (s, e)) : s ≤ e := by
  unfold valid_period at h
  split at h
  · split at h
    · split at h
      · simp only [Option.some.injEq, Prod.mk.injEq] at h
        omega
      · simp at h
    · simp at h
  · simp at h

theorem record_entries_mem {r : InstituteRecord} {p : PeriodEntry}
    (hp : p ∈ record_entries r) :
    p.start_ord ≤ p.end_ord ∧ p.students = r.total_students := by
  unfold record_entries at hp
  rw [List.mem_filterMap] at hp
  obtain ⟨t, _, ht⟩ := hp
  rw [Option.map_eq_some'] at ht
  obtain ⟨se, hse, rfl⟩ := ht
  have hle : se.1 ≤ se.2 := valid_period_some (by simpa using hse)
  exact ⟨hle, rfl⟩

theorem count_flatMap {α β : Type} [BEq β] (f : α → List β) (l : List α) (b : β) :
    (l.flatMap f).count b = (l.map fun x => (f x).count b).sum := by
  induction l with
  | nil => simp
  | cons x xs ih => simp [List.flatMap_cons, ih]

theorem entries_flat_count (l : List PeriodEntry) (d : Nat)
    (h : ∀ p ∈ l, p.start_ord ≤ p.end_ord) :
    (l.flatMap fun p => date_range_ord p.start_ord p.end_ord).count d
      = (l.filter fun p => decide (p.start_ord ≤ d ∧ d ≤ p.end_ord)).length := by
  induction l with
  | nil => simp
  | cons p ps ih =>
    rw [List.flatMap_cons, List.count_append,
      ih (fun q hq => h q (List.mem_cons_of_mem _ hq)),
      count_date_range _ _ _ (h p (List.mem_cons_self _ _)), List.filter_cons]
    by_cases hc : p.start_ord ≤ d ∧ d ≤ p.end_ord
    · simp [hc]
      omega
    · simp [hc]

theorem record_flat_count (r : InstituteRecord) (d : Nat) :
    ((record_entries r).flatMap fun p => date_range_ord p.start_ord p.end_ord).count d
      = covering_count r d := by
  rw [covering_count]
  exact entries_flat_count _ _ (fun p hp => (record_entries_mem hp).1)

theorem exam_counts_eq (df : List InstituteRecord) (d : Nat) :
    exam_counts_at df d = (df.map fun r => covering_count r d).sum := by
  rw [exam_counts_at, all_exam_dates, count_flatMap]
  exact congrArg List.sum (List.map_congr_left fun r _ => record_flat_count r d)

theorem fold_days_apply (days : List Nat) (students : Int) (m : Nat → Int) (d : Nat) :
    (days.foldl (fun m2 dk => fun x => if x = dk then m2 x + students else m2 x) m) d
      = m d + (days.count d : Int) * students := by
  induction days generalizing m with
  | nil => simp
  | cons dk rest ih =>
    rw [List.foldl_cons, ih, List.count_cons]
    simp only [beq_iff_eq]
    by_cases hc : d = dk
    · subst hc
      rw [if_pos rfl, if_pos rfl]
      push_cast
      ring
    · rw [if_neg hc, if_neg (fun h2 => hc h2.symm)]
      push_cast [if_neg (fun h2 : dk = d => hc h2.symm)]
      ring

theorem fold_entries_apply (l : List PeriodEntry) (acc : Nat → Int) (d : Nat)
    (h : ∀ p ∈ l, p.start_ord ≤ p.end_ord) :
    (l.foldl (fun acc2 p => (date_range_ord p.start_ord p.end_ord).foldl
        (fun m dk => fun x => if x = dk then m x + p.students else m x) acc2) acc) d
      = acc d + (l.map fun p =>
          if p.start_ord ≤ d ∧ d ≤ p.end_ord then p.students else 0).sum := by
  induction l generalizing acc with
  | nil => simp
  | cons p ps ih =>
    rw [List.foldl_cons, ih _ (fun q hq => h q (List.mem_cons_of_mem _ hq)),
      fold_days_apply, count_date_range _ _ _ (h p (List.mem_cons_self _ _))]
    rw [List.map_cons, List.sum_cons]
    split_ifs with hc
    · push_cast
      ring
    · push_cast
      ring

theorem if_sum_const (l : List PeriodEntry) (c : Int) (d : Nat)
    (h : ∀ p ∈ l, p.students = c) :
    (l.map fun p => if p.start_ord ≤ d ∧ d ≤ p.end_ord then p.students else 0).sum
      = ((l.filter fun p =>
          decide (p.start_ord ≤ d ∧ d ≤ p.end_ord)).length : Int) * c := by
  induction l with
  | nil => simp
  | cons p ps ih =>
    rw [List.map_cons, List.sum_cons, List.filter_cons,
      ih (fun q hq => h q (List.mem_cons_of_mem _ hq)),
      h p (List.mem_cons_self _ _)]
    by_cases hc : p.start_ord ≤ d ∧ d ≤ p.end_ord
    · rw [if_pos hc, if_pos (decide_eq_true hc), List.length_cons]
      push_cast
      ring
    · rw [if_neg hc, if_neg (by simpa using hc)]
      ring

theorem fold_records_apply (df : List InstituteRecord) (acc : Nat → Int) (d : Nat) :
    (df.foldl
      (fun a r =>
        (record_entries r).foldl
          (fun acc2 p =>
            (date_range_ord p.start_ord p.end_ord).foldl
              (fun m dk => fun x => if x = dk then m x + p.students else m x) acc2)
          a)
      acc) d
      = acc d + (df.map fun r => (covering_count r d : Int) * r.total_students).sum := by
  induction df generalizing acc with
  | nil => simp
  | cons r rs ih =>
    rw [List.foldl_cons, ih, fold_entries_apply _ _ _
      (fun p hp => (record_entries_mem hp).1)]
    rw [List.map_cons, List.sum_cons]
    rw [if_sum_const _ _ _ (fun p hp => (record_entries_mem hp).2), ← covering_count]
    ring

theorem unav_eq (df : List InstituteRecord) (d : Nat) :
    unavailable_students_map df d
      = (df.map fun r => (covering_count r d : Int) * r.total_students).sum := by
  rw [unavailable_students_map, fold_records_apply]
  ring

theorem daysBeforeMonth_one (y : Nat) : daysBeforeMonth y 1 = 0 := by
  simp [daysBeforeMonth]

theorem daysBeforeMonth_twelve (y : Nat) :
    daysBeforeMonth y 12 = if isLeap y then 335 else 334 := by
  cases h : isLeap y <;>
    simp [daysBeforeMonth, List.range_succ, daysInMonth, h]

theorem year_span (y : Nat) :
    year_end_ord y = year_start_ord y + (if isLeap y then 365 else 364) := by
  have h12 := daysBeforeMonth_twelve y
  have h1 := daysBeforeMonth_one y
  show daysBeforeYear y + daysBeforeMonth y 12 + 31
      = daysBeforeYear y + daysBeforeMonth y 1 + 1 + (if isLeap y then 365 else 364)
  by_cases h : isLeap y = true
  · rw [if_pos h] at h12 ⊢
    omega
  · rw [if_neg h] at h12 ⊢
    omega

theorem full_range_length (y : Nat) :
    (full_range y).length = if isLeap y then 366 else 365 := by
  rw [full_range, List.length_range']
  have h := year_span y
  by_cases hl : isLeap y = true
  · rw [if_pos hl] at h ⊢
    omega
  · rw [if_neg hl] at h ⊢
    omega

theorem full_range_mem (y n : Nat) :
    n ∈ full_range y ↔ year_start_ord y ≤ n ∧ n ≤ year_end_ord y := by
  rw [full_range, List.mem_range'_1]
  have h := year_span y
  by_cases hl : isLeap y = true
  · rw [if_pos hl] at h
    omega
  · rw [if_neg hl] at h
    omega

theorem full_range_sorted (y : Nat) : (full_range y).Pairwise (· < ·) := by
  rw [full_range]
  exact List.pairwise_lt_range' _ _

theorem tryFormats_year {fs : List (List Dir)} {s : String} {dt : Ymd}
    (h : tryFormats fs s = some dt) : 2000 ≤ dt.y ∧ dt.y ≤ 2099 := by
  induction fs with
  | nil => simp [tryFormats] at h
  | cons f rest ih =>
    rw [tryFormats] at h
    cases hp : toDatetimeFmt f s with
    | none =>
      simp only [hp] at h
      exact ih h
    | some dt0 =>
      simp only [hp] at h
      by_cases hr : 2000 ≤ (yearFix dt0).y ∧ (yearFix dt0).y ≤ 2099
      · rw [if_pos hr] at h
        injection h with h2
        rw [← h2]
        exact hr
      · rw [if_neg hr] at h
        exact ih h

theorem normalizeYmd_year {s : String} {dt : Ymd}
    (h : normalizeYmd s = some dt) : 2000 ≤ dt.y ∧ dt.y ≤ 2099 := by
  rw [normalizeYmd] at h
  by_cases he : pyStrip s = ""
  · rw [if_pos he] at h
    simp at h
  · rw [if_neg he] at h
    cases htf : tryFormats formatsToTry (pyStrip s) with
    | some dt0 =>
      simp only [htf] at h
      injection h with h2
      rw [← h2]
      exact tryFormats_year htf
    | none =>
      simp only [htf] at h
      cases hdu : dateutilDayfirst (pyStrip s) with
      | none =>
        simp only [hdu] at h
        simp at h
      | some dt1 =>
        simp only [hdu, Option.some_bind] at h
        by_cases hr : 2000 ≤ dt1.y ∧ dt1.y ≤ 2099
        · rw [if_pos hr] at h
          injection h with h2
          rw [← h2]
          exact hr
        · rw [if_neg hr] at h
          simp at h

/-! ## Claim theorems -/

/-- Claim C1, counterexample.  The claim says an institute with two or more
exam periods covering day `d` decrements `institutes_available[d]` by
exactly 1.  On the code this fails: `recTwoPeriods` is a single valid
institute whose two periods both cover June 11, 2025, so the snapshot has
one institute in total, two covering periods, and availability `1 - 2 = -1`
on that day instead of the capped `1 - 1 = 0`. -/
theorem claim_C1_counterexample :
    total_institutes (user_valid_df [recTwoPeriods]) = 1 ∧
    covering_count recTwoPeriods dJun11 = 2 ∧
    institute_availability [recTwoPeriods] dJun11 = -1 ∧
    institute_availability [recTwoPeriods] dJun11
      = (total_institutes (user_valid_df [recTwoPeriods]) : Int) - 2 := by
  refine ⟨by decide, by decide, by decide, by decide⟩

/-- Claim C1, amended.  The per-day decrement of `institutes_available` is
not capped per institute: inserting a record `r` into the snapshot adds
exactly `covering_count r d` — the number of `r`'s valid exam periods
covering `d` — to the subtracted exam count for day `d`, one decrement per
covering period. -/
theorem claim_C1_per_period_decrement (df1 df2 : List InstituteRecord)
    (r : InstituteRecord) (d : Nat) :
    institute_availability (df1 ++ r :: df2) d
      = (total_institutes (user_valid_df (df1 ++ r :: df2)) : Int)
        - ((exam_counts_at (df1 ++ df2) d : Int) + (covering_count r d : Int)) := by
  rw [institute_availability]
  have h1 : exam_counts_at (df1 ++ r :: df2) d
      = exam_counts_at (df1 ++ df2) d + covering_count r d := by
    rw [exam_counts_eq, exam_counts_eq]
    simp only [List.map_append, List.sum_append, List.map_cons, List.sum_cons]
    omega
  omega

/-- Claim C2, counterexample.  The claimed invariant
`0 <= institutes_available[d]` (and the student analogue) fails on the
code: one institute with two overlapping periods drives both series
negative on June 11, 2025. -/
theorem claim_C2_counterexample :
    institute_availability [recTwoPeriods] dJun11 < 0 ∧
    student_availability [recTwoPeriods] dJun11 < 0 := by
  refine ⟨by decide, by decide⟩

/-- Claim C2, amended.  Only the upper bounds hold:
`institutes_available[d] <= total_institutes` unconditionally, and
`students_available[d] <= total_students` whenever every snapshot record
has a non-negative student count; the lower bounds of 0 do not hold in
general. -/
theorem claim_C2_upper_bounds (df0 : List InstituteRecord) (d : Nat)
    (h : ∀ r ∈ df0, 0 ≤ r.total_students) :
    institute_availability df0 d ≤ (total_institutes (user_valid_df df0) : Int) ∧
    student_availability df0 d ≤ total_students_sum (user_valid_df df0) := by
  constructor
  · rw [institute_availability]
    omega
  · rw [student_availability]
    have h2 : 0 ≤ unavailable_students_map df0 d := by
      rw [unav_eq]
      apply List.sum_nonneg
      intro x hx
      rw [List.mem_map] at hx
      obtain ⟨r, hr, rfl⟩ := hx
      exact mul_nonneg (Int.natCast_nonneg _) (h r hr)
    omega

/-- Witness for the amended claim C2 at a concrete snapshot. -/
theorem claim_C2_witness :
    0 ≤ recKeep.total_students ∧
    (institute_availability [recKeep] dJun11
        ≤ (total_institutes (user_valid_df [recKeep]) : Int) ∧
      student_availability [recKeep] dJun11
        ≤ total_students_sum (user_valid_df [recKeep])) :=
  ⟨by decide, claim_C2_upper_bounds [recKeep] dJun11 (by decide)⟩

/-- Claim C3.  For every day `d`, `students_available[d]` equals the
(filtered) student total minus the sum, over every record of the snapshot
and every valid exam period of that record covering `d`, of that record's
`total_students` — one subtraction per matching period, with no per-
institute cap. -/
theorem claim_C3_students_per_period (df0 : List InstituteRecord) (d : Nat) :
    student_availability df0 d
      = total_students_sum (user_valid_df df0)
        - (df0.map fun r => (covering_count r d : Int) * r.total_students).sum := by
  rw [student_availability, unav_eq]

/-- Claim C4.  For every snapshot and every year, `calendar_data` has one
row per day: its dates are exactly `full_range`, there are 365 entries (366
in a leap year), the dates are strictly increasing, and they are exactly
the days from January 1 through December 31 of the year. -/
theorem claim_C4_full_year (df0 : List InstituteRecord) (y : Nat) :
    (calendar_data df0 y).map (fun row => row.date) = full_range y ∧
    (calendar_data df0 y).length = (if isLeap y then 366 else 365) ∧
    ((calendar_data df0 y).map (fun row => row.date)).Pairwise (· < ·) ∧
    (∀ n, n ∈ (calendar_data df0 y).map (fun row => row.date) ↔
      toOrdinal ⟨y, 1, 1⟩ ≤ n ∧ n ≤ toOrdinal ⟨y, 12, 31⟩) := by
  have hmap : (calendar_data df0 y).map (fun row => row.date) = full_range y := by
    show ((full_range y).map _).map _ = full_range y
    rw [List.map_map]
    exact (List.map_congr_left fun a _ => rfl).trans (List.map_id _)
  refine ⟨hmap, ?_, ?_, ?_⟩
  · have h2 := congrArg List.length hmap
    rw [List.length_map] at h2
    rw [h2, full_range_length]
  · rw [hmap]
    exact full_range_sorted y
  · intro n
    rw [hmap]
    exact full_range_mem y n

/-- Claim C5.  On a day covered by no valid exam period of any snapshot
record, both availability series equal their (filtered) totals. -/
theorem claim_C5_uncovered_day (df0 : List InstituteRecord) (d : Nat)
    (h : ∀ r ∈ df0, ∀ p ∈ record_entries r,
      ¬(p.start_ord ≤ d ∧ d ≤ p.end_ord)) :
    institute_availability df0 d = (total_institutes (user_valid_df df0) : Int) ∧
    student_availability df0 d = total_students_sum (user_valid_df df0) := by
  have hcov : ∀ r ∈ df0, covering_count r d = 0 := by
    intro r hr
    rw [covering_count, List.length_eq_zero, List.filter_eq_nil_iff]
    intro p hp
    simpa using h r hr p hp
  constructor
  · rw [institute_availability, exam_counts_eq]
    have hsum : (df0.map fun r => covering_count r d).sum = 0 := by
      apply List.sum_eq_zero
      intro x hx
      rw [List.mem_map] at hx
      obtain ⟨r, hr, rfl⟩ := hx
      exact hcov r hr
    rw [hsum]
    omega
  · rw [student_availability, unav_eq]
    have hsum : (df0.map fun r =>
        (covering_count r d : Int) * r.total_students).sum = 0 := by
      apply List.sum_eq_zero
      intro x hx
      rw [List.mem_map] at hx
      obtain ⟨r, hr, rfl⟩ := hx
      rw [hcov r hr]
      simp
    rw [hsum]
    omega

/-- Witness for claim C5: June 20, 2025, a day outside `recKeep`'s only
exam period. -/
theorem claim_C5_witness :
    covering_count recKeep (toOrdinal ⟨2025, 6, 20⟩) = 0 ∧
    (institute_availability [recKeep] (toOrdinal ⟨2025, 6, 20⟩)
        = (total_institutes (user_valid_df [recKeep]) : Int) ∧
      student_availability [recKeep] (toOrdinal ⟨2025, 6, 20⟩)
        = total_students_sum (user_valid_df [recKeep])) :=
  ⟨by decide, claim_C5_uncovered_day [recKeep] _ (by decide)⟩

/-- Claim C6.  The four sample spellings of May 19, 2025 all normalize to
the canonical `19-05-2025`; the two-digit year `19-05-25` lands in 2025;
inputs whose parsed year is outside `[2000, 2099]` (1999, 2150) normalize
to the absence marker, and in general every successful normalization has a
year in `[2000, 2099]`. -/
theorem claim_C6_normalization :
    normalize_date_string "19-05-2025" = some "19-05-2025" ∧
    normalize_date_string "19/05/2025" = some "19-05-2025" ∧
    normalize_date_string "2025-05-19" = some "19-05-2025" ∧
    normalize_date_string "19 May 2025" = some "19-05-2025" ∧
    normalize_date_string "19-05-25" = some "19-05-2025" ∧
    normalize_date_string "19-05-1999" = none ∧
    normalize_date_string "19-05-2150" = none ∧
    ∀ s dt, normalizeYmd s = some dt → 2000 ≤ dt.y ∧ dt.y ≤ 2099 := by
  refine ⟨by decide, by decide, by decide, by decide, by decide, by decide,
    by decide, fun s dt h => normalizeYmd_year h⟩

/-- Witness for claim C6's universally quantified year-range component. -/
theorem claim_C6_witness :
    normalizeYmd "19-05-2025" = some ⟨2025, 5, 19⟩ ∧
    (2000 ≤ (Ymd.mk 2025 5 19).y ∧ (Ymd.mk 2025 5 19).y ≤ 2099) :=
  ⟨by decide,
    claim_C6_normalization.2.2.2.2.2.2.2 "19-05-2025" ⟨2025, 5, 19⟩ (by decide)⟩

/-- Claim C7.  A `(name, academic year)` pair is listed by
`colleges_with_exams` exactly when some record with that name has a valid
period `[s, e]` for that academic year with `s <= range_end` and
`e >= range_start`; concretely, the May 30 - June 2 exam overlapping the
June range at its start is included and the July 1-5 exam is excluded. -/
theorem claim_C7_overlap (df : List InstituteRecord) (rs re : Nat) (h : rs ≤ re)
    (name ay : String) :
    ((name, ay) ∈ colleges_with_exams df rs re ↔
      ∃ r ∈ df, r.institute_name = name ∧
        ∃ t ∈ exam_pairs_to_years r, t.1 = ay ∧
          ∃ se, valid_period t.2.1 t.2.2 = some se ∧ se.1 ≤ re ∧ rs ≤ se.2) ∧
    colleges_with_exams [recPartial] (toOrdinal ⟨2025, 6, 1⟩)
      (toOrdinal ⟨2025, 6, 30⟩) = [("partial college", "I year")] ∧
    colleges_with_exams [recDisjoint] (toOrdinal ⟨2025, 6, 1⟩)
      (toOrdinal ⟨2025, 6, 30⟩) = [] := by
  refine ⟨?_, by decide, by decide⟩
  rw [colleges_with_exams, List.mem_flatMap]
  constructor
  · rintro ⟨r, hr, hmem⟩
    rw [List.mem_filterMap] at hmem
    obtain ⟨t, ht, hopt⟩ := hmem
    rw [Option.bind_eq_some] at hopt
    obtain ⟨se, hse, hif⟩ := hopt
    by_cases hc : se.1 ≤ re ∧ rs ≤ se.2
    · rw [if_pos hc] at hif
      injection hif with h2
      rw [Prod.mk.injEq] at h2
      exact ⟨r, hr, h2.1, t, ht, h2.2, se, hse, hc.1, hc.2⟩
    · rw [if_neg hc] at hif
      exact absurd hif (by simp)
  · rintro ⟨r, hr, hname, t, ht, hay, se, hse, h1, h2⟩
    refine ⟨r, hr, ?_⟩
    rw [List.mem_filterMap]
    refine ⟨t, ht, ?_⟩
    rw [Option.bind_eq_some]
    exact ⟨se, hse, by rw [if_pos ⟨h1, h2⟩, hname, hay]⟩

/-- Witness for claim C7 at the concrete disjoint-period snapshot. -/
theorem claim_C7_witness :
    colleges_with_exams [recDisjoint] (toOrdinal ⟨2025, 6, 1⟩)
      (toOrdinal ⟨2025, 6, 30⟩) = [] :=
  (claim_C7_overlap [recDisjoint] (toOrdinal ⟨2025, 6, 1⟩)
    (toOrdinal ⟨2025, 6, 30⟩) (by decide) "x" "y").2.2

theorem malformed_valid_none {os oe : Option String}
    (hm : period_malformed os oe) : valid_period os oe = none := by
  rw [valid_period]
  rcases hm with ⟨h1, h2⟩ | ⟨h1, h2⟩ | ⟨h1, h2, ds, de, hds, hde, hlt⟩
  · simp [h1, h2]
  · simp [h1, h2]
  · rw [h1, h2]
    simp only [Bool.and_self, if_true]
    rw [hds, hde]
    dsimp only
    rw [if_neg (by omega)]

/-- Claim C8.  A malformed period column pair — only one date present, or
start after end — contributes nothing: blanking that pair leaves the
record's `exam_periods` entries, the per-day exam-date counts, and the
per-day student unavailability unchanged, so the record's other valid
periods are still the only contributions. -/
theorem claim_C8_malformed_ignored (r : InstituteRecord) (i : Nat) (hi : i < 4)
    (hm : period_malformed (pair_at r i).1 (pair_at r i).2) :
    record_entries r = record_entries (clear_pair r i) ∧
    (∀ df1 df2 d, exam_counts_at (df1 ++ r :: df2) d
        = exam_counts_at (df1 ++ clear_pair r i :: df2) d) ∧
    (∀ df1 df2 d, unavailable_students_map (df1 ++ r :: df2) d
        = unavailable_students_map (df1 ++ clear_pair r i :: df2) d) ∧
    (∀ df1 df2, exam_periods (df1 ++ r :: df2)
        = exam_periods (df1 ++ clear_pair r i :: df2)) := by
  have hE : record_entries r = record_entries (clear_pair r i) := by
    have hnone := malformed_valid_none hm
    interval_cases i <;> dsimp only [pair_at] at hnone <;>
      simp [record_entries, exam_pairs_to_years, clear_pair,
        List.filterMap_cons, hnone,
        show ∀ oe, valid_period none oe = none from fun _ => rfl]
  refine ⟨hE, ?_, ?_, ?_⟩
  · intro df1 df2 d
    rw [exam_counts_at, exam_counts_at, all_exam_dates, all_exam_dates,
      List.flatMap_append, List.flatMap_append, List.flatMap_cons,
      List.flatMap_cons]
    simp only [hE]
  · intro df1 df2 d
    rw [unavailable_students_map, unavailable_students_map,
      List.foldl_append, List.foldl_append, List.foldl_cons, List.foldl_cons]
    simp only [hE]
  · intro df1 df2
    rw [exam_periods, exam_periods, List.flatMap_append, List.flatMap_append,
      List.flatMap_cons, List.flatMap_cons, hE]

/-- Witness for claim C8: `recMalformed`'s I-year pair has a start date but
no end date. -/
theorem claim_C8_witness :
    record_entries recMalformed = record_entries (clear_pair recMalformed 0) :=
  (claim_C8_malformed_ignored recMalformed 0 (by decide)
    (Or.inl (by decide))).1

/-- Claim C9.  With a zero institute total, every `calendar_data` row has
`institute_percentage = 0` and `intensity = 0` (the division branch is
guarded by `total_institutes > 0` and is not taken); likewise a zero
student total yields `student_percentage = 0`. -/
theorem claim_C9_zero_total_guard (df0 : List InstituteRecord) (y : Nat) :
    (total_institutes (user_valid_df df0) = 0 →
      ∀ row ∈ calendar_data df0 y,
        row.institute_percentage = 0 ∧ row.intensity = 0) ∧
    (total_students_sum (user_valid_df df0) = 0 →
      ∀ row ∈ calendar_data df0 y, row.student_percentage = 0) := by
  constructor
  · intro h row hrow
    simp only [calendar_data, List.mem_map] at hrow
    obtain ⟨d, hd, rfl⟩ := hrow
    have hz : ¬ ((0 : Int) < (total_institutes (user_valid_df df0) : Int)) := by
      omega
    constructor
    · dsimp only
      rw [if_neg hz]
    · dsimp only
      rw [if_neg hz]
  · intro h row hrow
    simp only [calendar_data, List.mem_map] at hrow
    obtain ⟨d, hd, rfl⟩ := hrow
    have hz : ¬ ((0 : Int) < total_students_sum (user_valid_df df0)) := by
      omega
    dsimp only
    rw [if_neg hz]

/-- Witness for claim C9 on the empty snapshot, at its January 1 row. -/
theorem claim_C9_witness :
    total_institutes (user_valid_df ([] : List InstituteRecord)) = 0 ∧
    rowJan1Empty.institute_percentage = 0 ∧ rowJan1Empty.intensity = 0 :=
  ⟨rfl, (claim_C9_zero_total_guard [] 2025).1 rfl rowJan1Empty (by decide)⟩

/-- Claim C10.  The aggregation feeding both availability series runs over
the full unfiltered snapshot while the totals are taken over the filtered
set: each series equals the filtered total minus a sum ranging over every
snapshot record, including excluded ones.  Concretely, in `dfMixed` the
zero-student row, the summary row, and the duplicate-code row all still
decrement June 11, giving `1 - 4 = -3` institutes and `10 - 22 = -12`
students available. -/
theorem claim_C10_unfiltered_aggregation (df0 : List InstituteRecord) (d : Nat) :
    (institute_availability df0 d
        = (total_institutes (user_valid_df df0) : Int)
          - (((df0.map fun r => covering_count r d).sum : Nat) : Int) ∧
      student_availability df0 d
        = total_students_sum (user_valid_df df0)
          - (df0.map fun r => (covering_count r d : Int) * r.total_students).sum) ∧
    (user_valid_df dfMixed = [recKeep] ∧
      institute_availability dfMixed dJun11 = -3 ∧
      student_availability dfMixed dJun11 = -12) := by
  refine ⟨⟨?_, ?_⟩, by decide, by decide, by decide⟩
  · rw [institute_availability, exam_counts_eq]
  · rw [student_availability, unav_eq]

end Dashboard



